import Mathlib

/-!
Verification development for the api-football bronze/silver/gold ETL pipeline
(`etl_utils.py` and `scripts/etl_fixtures.py`).

The pandas `DataFrame` threaded through the Silver/Gold transforms is embedded
shallowly: a frame is a list of column names (`header`) together with a list of
rows, each row an association list from column name to `Cell` value.  A `Cell`
is the value of one field of one row: a missing value (`pd.NA` / `NaT` / `None`),
an integer, a string, a UTC timestamp (seconds since the UNIX epoch), a calendar
date (days since the UNIX epoch), or a categorical string value (the result of
`astype("category")` on a string column).  Transform functions from
`etl_utils.py` are translated one to one, keeping their names and their
column-presence guards.
-/

set_option autoImplicit false

namespace EtlFootball

/-- Cell value of a pandas DataFrame entry: missing value, integer, string,
UTC timestamp (epoch seconds), calendar date (epoch days), or categorical
string.  The cell kinds that occur in the pipeline are covered; the model
does not represent floating-point score columns (produced only by
`normalize_score_cols_to_float`, which no verified claim touches). -/
inductive Cell where
  | na : Cell
  | int : Int → Cell
  | str : String → Cell
  | ts : Int → Cell
  | date : Int → Cell
  | cat : String → Cell
deriving DecidableEq

/-- One DataFrame row: association list from column name to cell value. -/
abbrev Row := List (String × Cell)

/-- Value of column `c` in row `r`; reading an absent column yields the
missing-value marker (in pandas every row carries every frame column, so for
well-formed frames the lookup always succeeds). -/
def getVal : Row → String → Cell
  | [], _ => Cell.na
  | (k, v) :: t, c => if k = c then v else getVal t c

/-- Assignment `row[c] = v`: replace the value at the first occurrence of key
`c`, or append the pair at the end when the key is absent (pandas column
assignment keeps the position of an existing column and appends a new one). -/
def setVal : Row → String → Cell → Row
  | [], c, v => [(c, v)]
  | (k, w) :: t, c, v => if k = c then (c, v) :: t else (k, w) :: setVal t c v

/-- In-memory pandas DataFrame: ordered column names plus rows. -/
structure DataFrame where
  header : List String
  rows : List Row
deriving DecidableEq

/-- Column assignment `df[c] = f(row)`: every row receives a value computed
from that row; the header gains `c` at the end when it was absent. -/
def assignCol (df : DataFrame) (c : String) (f : Row → Cell) : DataFrame :=
  { header := if c ∈ df.header then df.header else df.header ++ [c]
    rows := df.rows.map (fun r => setVal r c (f r)) }

/-- Element-wise update of one column, `df[c] = g(df[c])`. -/
def mapCol (df : DataFrame) (c : String) (g : Cell → Cell) : DataFrame :=
  assignCol df c (fun r => g (getVal r c))

/-- `df.drop(columns=cs)`: remove every column whose name is in `cs`. -/
def dropColumns (df : DataFrame) (cs : List String) : DataFrame :=
  { header := df.header.filter (fun k => decide (k ∉ cs))
    rows := df.rows.map (fun r => r.filter (fun p => decide (p.1 ∉ cs))) }

/-- `df.rename(columns=f)`: rename every column label through `f`. -/
def renameCols (df : DataFrame) (f : String → String) : DataFrame :=
  { header := df.header.map f
    rows := df.rows.map (List.map (fun p => (f p.1, p.2))) }

/-- Row `i` of the frame (empty row when out of range). -/
def rowAt (df : DataFrame) (i : Nat) : Row :=
  df.rows.getD i []

/-- Cell of row `i`, column `c`. -/
def colCell (df : DataFrame) (i : Nat) (c : String) : Cell :=
  getVal (rowAt df i) c

/-! ### Calendar arithmetic and ISO-8601 parsing

`pd.to_datetime` on the UTC strings delivered by the API, and the epoch
arithmetic behind `datetime.utcnow`, are modelled over civil-calendar
conversion (the standard days-from-civil algorithm). -/

/-- Days from the UNIX epoch to civil date `y-m-d` (standard era-based
civil-calendar algorithm; all divisors positive, `/` and `%` on `Int` are
Euclidean, hence floor-like here). -/
def daysFromCivil (y m d : Nat) : Int :=
  let yAdj : Int := if m ≤ 2 then (y : Int) - 1 else (y : Int)
  let era : Int := yAdj / 400
  let yoe : Int := yAdj - era * 400
  let mp : Int := ((m : Int) + 9) % 12
  let doy : Int := (153 * mp + 2) / 5 + (d : Int) - 1
  let doe : Int := yoe * 365 + yoe / 4 - yoe / 100 + doy
  era * 146097 + doe - 719468

/-- Epoch seconds of the UTC instant `y-m-d h:mi:s`. -/
def epochOfCivil (y m d h mi s : Nat) : Int :=
  86400 * daysFromCivil y m d + 3600 * (h : Int) + 60 * (mi : Int) + (s : Int)

/-- Greedy split of a leading run of decimal digits. -/
def takeDigits : List Char → List Char × List Char
  | [] => ([], [])
  | c :: rest =>
    if c.isDigit then
      let p := takeDigits rest
      (c :: p.1, p.2)
    else ([], c :: rest)

/-- Numeric value of a digit run. -/
def digitsToNat (ds : List Char) : Nat :=
  ds.foldl (fun a c => a * 10 + (c.toNat - 48)) 0

/-- Parse a `YYYY-MM-DD` prefix, returning the fields and the rest. -/
def parseDateChars (cs : List Char) : Option (Nat × Nat × Nat × List Char) :=
  let py := takeDigits cs
  match py.2 with
  | '-' :: r2 =>
    let pm := takeDigits r2
    match pm.2 with
    | '-' :: r4 =>
      let pd := takeDigits r4
      if py.1 = [] ∨ pm.1 = [] ∨ pd.1 = [] then none
      else some (digitsToNat py.1, digitsToNat pm.1, digitsToNat pd.1, pd.2)
    | _ => none
  | _ => none

/-- Parse an `HH:MM:SS` prefix, returning the fields and the rest. -/
def parseTimeChars (cs : List Char) : Option (Nat × Nat × Nat × List Char) :=
  let ph := takeDigits cs
  match ph.2 with
  | ':' :: r2 =>
    let pm := takeDigits r2
    match pm.2 with
    | ':' :: r4 =>
      let ps := takeDigits r4
      if ph.1 = [] ∨ pm.1 = [] ∨ ps.1 = [] then none
      else some (digitsToNat ph.1, digitsToNat pm.1, digitsToNat ps.1, ps.2)
    | _ => none
  | _ => none

/-- Parse of the ISO-8601 UTC timestamp strings handled by `pd.to_datetime`
in this pipeline: `YYYY-MM-DD`, optionally followed by `THH:MM:SS` and an
UTC designator (`Z` or `+00:00`).  Result in epoch seconds. -/
def parseIsoUtc (s : String) : Option Int :=
  match parseDateChars s.data with
  | none => none
  | some (y, m, d, rest) =>
    match rest with
    | [] => some (86400 * daysFromCivil y m d)
    | 'T' :: r =>
      match parseTimeChars r with
      | none => none
      | some (h, mi, sec, r2) =>
        if r2 = [] ∨ r2 = ['Z'] ∨ r2 = ['+', '0', '0', ':', '0', '0'] then
          some (epochOfCivil y m d h mi sec)
        else none
    | _ => none

/-! ### Cell-level images of the pandas operations used by the transforms -/

/-- `pd.to_datetime(·, utc=True)` on one cell: ISO-8601 strings are parsed,
timestamps pass through, dates become midnight timestamps, missing stays
missing.  Cell kinds that never reach these columns in the pipeline are
normalized to the missing marker. -/
def toDatetimeCell : Cell → Cell
  | Cell.str s =>
    match parseIsoUtc s with
    | some t => Cell.ts t
    | none => Cell.na
  | Cell.ts t => Cell.ts t
  | Cell.date d => Cell.ts (d * 86400)
  | _ => Cell.na

/-- `pd.to_datetime(·, unit="s", utc=True)` on one cell: integers are epoch
seconds; missing stays missing (`NaT`). -/
def epochSecCell : Cell → Cell
  | Cell.int i => Cell.ts i
  | Cell.ts t => Cell.ts t
  | _ => Cell.na

/-- `.dt.floor("min")` on one cell of a datetime column: zero out the
seconds (`NaT` stays missing). -/
def floorMinuteCell : Cell → Cell
  | Cell.ts t => Cell.ts (t - t % 60)
  | _ => Cell.na

/-- `.dt.date` on one cell of a datetime column: calendar date of the
timestamp (`NaT` stays missing). -/
def dateCell : Cell → Cell
  | Cell.ts t => Cell.date (t / 86400)
  | _ => Cell.na

/-- `astype("Int64")` on one cell: nullable integers pass through, missing
stays missing.  Other kinds do not occur in the numeric columns of this
pipeline and are normalized to missing. -/
def castInt64Cell : Cell → Cell
  | Cell.int i => Cell.int i
  | _ => Cell.na

/-- `astype("string")` on one cell: strings pass through, categorical values
recover their string, integers are rendered, missing stays missing. -/
def castStringCell : Cell → Cell
  | Cell.str s => Cell.str s
  | Cell.cat s => Cell.str s
  | Cell.int i => Cell.str (toString i)
  | _ => Cell.na

/-- `astype("category")` on one cell: string values become categorical,
categorical and missing values are unchanged; other kinds keep their value
(a categorical dtype does not alter the underlying values). -/
def castCategoryCell : Cell → Cell
  | Cell.str s => Cell.cat s
  | Cell.cat s => Cell.cat s
  | Cell.na => Cell.na
  | v => v

/-! ### Transform functions of `etl_utils.py` -/

/-- Python `str.lower()` (the column names are ASCII). -/
def pyLower (s : String) : String :=
  String.mk (s.data.map Char.toLower)

/-- Python `str.replace(".", "_")`: with a one-character pattern this is a
character-wise substitution. -/
def replaceDotsWithUnderscores (s : String) : String :=
  String.mk (s.data.map (fun c => if c = '.' then '_' else c))

/-- The column-name map of `standardize_column_names`:
`lambda c: c.lower().replace(".", "_")`. -/
def stdName (c : String) : String :=
  replaceDotsWithUnderscores (pyLower c)

/-- `rename_fixture_id`: rename column `fixture.id` to `fixture_id` when
present (the guard mirrors the source; `rename` substitutes every matching
label). -/
def rename_fixture_id (df : DataFrame) : DataFrame :=
  if "fixture.id" ∈ df.header then
    renameCols df (fun c => if c = "fixture.id" then "fixture_id" else c)
  else df

/-- `standardize_column_names`: lowercase every column name and replace dots
by underscores. -/
def standardize_column_names (df : DataFrame) : DataFrame :=
  renameCols df stdName

/-- `add_event_date_from_fixture_date`: derive `event_date` from
`fixture.date` when that column exists (parsing it in place first), else
from `fixture_date`, else do nothing. -/
def add_event_date_from_fixture_date (df : DataFrame) : DataFrame :=
  if "fixture.date" ∈ df.header then
    let df1 := mapCol df "fixture.date" toDatetimeCell
    assignCol df1 "event_date" (fun r => dateCell (getVal r "fixture.date"))
  else if "fixture_date" ∈ df.header then
    let df1 := mapCol df "fixture_date" toDatetimeCell
    assignCol df1 "event_date" (fun r => dateCell (getVal r "fixture_date"))
  else df

/-- The guarded column update `if c in df.columns: df[c] = g(df[c])` used
throughout the transforms. -/
def iteMapCol (df : DataFrame) (c : String) (g : Cell → Cell) : DataFrame :=
  if c ∈ df.header then mapCol df c g else df

/-- `format_datetime_columns`: parse `fixture_date` as a UTC string
timestamp and floor to the minute; parse `fixture_periods_first` and
`fixture_periods_second` from UNIX epoch seconds and floor to the minute.
Each column is touched only when present, in source order. -/
def format_datetime_columns (df : DataFrame) : DataFrame :=
  iteMapCol
    (iteMapCol
      (iteMapCol df "fixture_date" (fun v => floorMinuteCell (toDatetimeCell v)))
      "fixture_periods_first" (fun v => floorMinuteCell (epochSecCell v)))
    "fixture_periods_second" (fun v => floorMinuteCell (epochSecCell v))

/-- The guarded-drop pattern shared by `drop_irrelevant_cols` and the tail
of `add_match_winner`: `existing = [c for c in cs if c in df.columns]; if
existing: df = df.drop(columns=existing)`. -/
def guardedDrop (df : DataFrame) (cs : List String) : DataFrame :=
  let existing := cs.filter (fun c => decide (c ∈ df.header))
  if existing.isEmpty then df else dropColumns df existing

/-- Deny-list of `drop_irrelevant_cols`. -/
def colsDropList : List String :=
  ["fixture_referee", "fixture_timezone", "fixture_timestamp",
   "fixture_periods_second", "fixture_status_long", "fixture_status_extra",
   "league_logo", "league_flag", "teams_home_logo", "teams_away_logo"]

/-- `drop_irrelevant_cols`: drop the deny-listed columns that are present
(the frame is returned untouched when none is present). -/
def drop_irrelevant_cols (df : DataFrame) : DataFrame :=
  guardedDrop df colsDropList

/-- The row function `_winner` of `add_match_winner`: `Home` / `Away` /
`Draw` from the two goal cells, missing when either is missing.  Goal cells
are integers or missing in this pipeline; other kinds are normalized to
missing. -/
def winnerCell : Cell → Cell → Cell
  | Cell.int gh, Cell.int ga =>
    if gh > ga then Cell.str "Home"
    else if gh < ga then Cell.str "Away"
    else Cell.str "Draw"
  | _, _ => Cell.na

/-- Tail of `add_match_winner`: drop `teams_home_winner` /
`teams_away_winner` when present. -/
def dropWinnerFlagCols (df : DataFrame) : DataFrame :=
  guardedDrop df ["teams_home_winner", "teams_away_winner"]

/-- `add_match_winner`: when both goal columns exist, derive `match_winner`
row-wise; then drop `teams_home_winner` / `teams_away_winner` when present
(the drop is outside the goals guard). -/
def add_match_winner (df : DataFrame) : DataFrame :=
  let df1 :=
    if "goals_home" ∈ df.header ∧ "goals_away" ∈ df.header then
      assignCol df "match_winner"
        (fun r => winnerCell (getVal r "goals_home") (getVal r "goals_away"))
    else df
  dropWinnerFlagCols df1

/-- Element-wise `+` on two cells of nullable integer columns: missing
propagates. -/
def addCells : Cell → Cell → Cell
  | Cell.int a, Cell.int b => Cell.int (a + b)
  | _, _ => Cell.na

/-- `add_total_goals`: `total_goals = goals_home + goals_away` when both
columns exist. -/
def add_total_goals (df : DataFrame) : DataFrame :=
  if "goals_home" ∈ df.header ∧ "goals_away" ∈ df.header then
    assignCol df "total_goals"
      (fun r => addCells (getVal r "goals_home") (getVal r "goals_away"))
  else df

/-- Keys of `type_mapping_numeric` in `cast_column_types`. -/
def numericCastCols : List String :=
  ["fixture_venue_id", "fixture_status_elapsed", "goals_home", "goals_away",
   "score_halftime_home", "score_halftime_away", "score_fulltime_home",
   "score_fulltime_away", "score_extratime_home", "score_extratime_away",
   "score_penalty_home", "score_penalty_away", "total_goals"]

/-- Keys of `type_mapping_string` in `cast_column_types`. -/
def stringCastCols : List String :=
  ["fixture_venue_name", "fixture_venue_city", "fixture_status_short",
   "league_name", "league_country", "league_round", "teams_home_name",
   "teams_away_name", "match_winner"]

/-- `df.astype(mapping)` for a list of columns sharing one target dtype:
apply the cell cast column by column. -/
def astypeAll (df : DataFrame) (cs : List String) (f : Cell → Cell) : DataFrame :=
  cs.foldl (fun d c => mapCol d c f) df

/-- `cast_column_types`: cast the present numeric columns to nullable
`Int64` and the present text columns to `string` (both guarded on a
non-empty selection, as in the source). -/
def cast_column_types (df : DataFrame) : DataFrame :=
  let numExists := numericCastCols.filter (fun c => decide (c ∈ df.header))
  let textExists := stringCastCols.filter (fun c => decide (c ∈ df.header))
  let df1 := if numExists.isEmpty then df else astypeAll df numExists castInt64Cell
  if textExists.isEmpty then df1 else astypeAll df1 textExists castStringCell

/-- Keys of the `categoricals` mapping in `cast_gold_categoricals`. -/
def categoricalCols : List String :=
  ["fixture_status_short", "league_round", "match_winner"]

/-- `cast_gold_categoricals`: cast the present low-cardinality columns to
`category`. -/
def cast_gold_categoricals (df : DataFrame) : DataFrame :=
  let existing := categoricalCols.filter (fun c => decide (c ∈ df.header))
  if existing.isEmpty then df else astypeAll df existing castCategoryCell

/-- `ensure_event_date_utc`: parse `event_date` to a UTC timestamp when the
column is present. -/
def ensure_event_date_utc (df : DataFrame) : DataFrame :=
  iteMapCol df "event_date" toDatetimeCell

/-! ### Table Store Adapter (`etl_utils.py`: Delta Lake operations)

A Delta table on disk is `Option (List Row)`: `none` when the path does not
yet hold a table (the `TableNotFoundError` case), otherwise the stored rows.
The merge predicate at every call site of `save_new_data_as_delta` is
`"target.fixture_id = source.fixture_id"`; it is evaluated with SQL
three-valued semantics, under which a comparison against `NULL` is not
satisfied. -/

/-- SQL equality of two cells under the merge engine: a comparison involving
a missing value is never satisfied (`NULL = NULL` is not true). -/
def sqlCellEq : Cell → Cell → Bool
  | Cell.na, _ => false
  | _, Cell.na => false
  | a, b => decide (a = b)

/-- Whether a source row matches some target row under the predicate
`target.fixture_id = source.fixture_id`. -/
def rowMatchesTarget (target : List Row) (s : Row) : Bool :=
  target.any (fun t => sqlCellEq (getVal t "fixture_id") (getVal s "fixture_id"))

/-- `save_new_data_as_delta`: `MERGE ... WHEN NOT MATCHED THEN INSERT *` of
the new rows into the stored table under the fixture_id-equality predicate;
when the table does not exist (`TableNotFoundError`) fall back to
`save_data_as_delta` in its default overwrite mode, which lands exactly the
new rows. -/
def save_new_data_as_delta (newData : List Row) (table : Option (List Row)) :
    List Row :=
  match table with
  | some target =>
    target ++ newData.filter (fun s => !(rowMatchesTarget target s))
  | none => newData

/-- Civil calendar date (as produced by `datetime.utcnow().strftime`). -/
structure Date where
  year : Nat
  month : Nat
  day : Nat
deriving DecidableEq

/-- Gregorian leap-year test. -/
def isLeap (y : Nat) : Bool :=
  (y % 4 == 0 && y % 100 != 0) || y % 400 == 0

/-- Length of month `m` of year `y`. -/
def daysInMonth (y m : Nat) : Nat :=
  if m = 2 then (if isLeap y then 29 else 28)
  else if m = 4 ∨ m = 6 ∨ m = 9 ∨ m = 11 then 30
  else 31

/-- Civil date of `today - timedelta(days=1)` (UTC has no daylight saving,
so subtracting 24 hours moves to the previous calendar day). -/
def prevDay (d : Date) : Date :=
  if d.day > 1 then ⟨d.year, d.month, d.day - 1⟩
  else if d.month > 1 then ⟨d.year, d.month - 1, daysInMonth d.year (d.month - 1)⟩
  else ⟨d.year - 1, 12, 31⟩

/-- Zero-padded two-digit rendering (`strftime` `%m` / `%d`). -/
def pad2 (n : Nat) : String :=
  if n < 10 then "0" ++ toString n else toString n

/-- Zero-padded four-digit rendering (`strftime` `%Y`). -/
def pad4 (n : Nat) : String :=
  if n < 10 then "000" ++ toString n
  else if n < 100 then "00" ++ toString n
  else if n < 1000 then "0" ++ toString n
  else toString n

/-- `strftime("%Y-%m-%d")`. -/
def formatDate (d : Date) : String :=
  pad4 d.year ++ "-" ++ pad2 d.month ++ "-" ++ pad2 d.day

/-- Result of `read_most_recent_partition`: a frame, or a raised exception. -/
inductive ReadResult where
  | ok : DataFrame → ReadResult
  | raised : String → ReadResult
deriving DecidableEq

/-- `read_most_recent_partition`: compute yesterday (UTC) from the current
date, and read only the partition whose `event_date` equals that day in
`YYYY-MM-DD` form.  A missing table (`DeltaTable` raising) is caught by the
blanket `except` and re-raised as `Exception(...)`; nothing is silently
returned empty. -/
def read_most_recent_partition (today : Date) (table : Option DataFrame) :
    ReadResult :=
  match table with
  | none => ReadResult.raised "No se pudo procesar la tabla Delta Lake"
  | some df =>
    let want := Cell.str (formatDate (prevDay today))
    ReadResult.ok ⟨df.header, df.rows.filter (fun r => decide (getVal r "event_date" = want))⟩

/-! ### Extraction helper (`etl_utils.py`: `get_data`)

Only the body handling after a successful HTTP response is modelled: the
response body is `none` when `response.json()` raises (invalid JSON), and
`some j` otherwise. -/

/-- Minimal JSON value. -/
inductive Json where
  | null : Json
  | bool : Bool → Json
  | num : Int → Json
  | str : String → Json
  | arr : List Json → Json
  | obj : List (String × Json) → Json

/-- Lookup of a field in a JSON object member list. -/
def findField : List (String × Json) → String → Option Json
  | [], _ => none
  | (k, v) :: t, f => if k = f then some v else findField t f

/-- Outcome of `get_data` after the HTTP layer: the Python `None` return, a
returned JSON value, or an uncaught exception naming its Python type. -/
inductive GetDataOutcome where
  | noneResult : GetDataOutcome
  | val : Json → GetDataOutcome
  | raised : String → GetDataOutcome

/-- `get_data` body after `raise_for_status()` succeeds: an unparseable body
(`response.json()` raising `ValueError`) is caught and surfaced as `None`;
otherwise, when `data_field` is a non-empty string (Python truthiness),
`data[data_field]` raises `KeyError` on an object lacking the field and
`TypeError` on a non-object — neither is a `ValueError`, so both escape. -/
def get_data_after_response (body : Option Json) (dataField : Option String) :
    GetDataOutcome :=
  match body with
  | none => GetDataOutcome.noneResult
  | some j =>
    match dataField with
    | none => GetDataOutcome.val j
    | some f =>
      if f = "" then GetDataOutcome.val j
      else
        match j with
        | Json.obj fields =>
          match findField fields f with
          | some v => GetDataOutcome.val v
          | none => GetDataOutcome.raised "KeyError"
        | _ => GetDataOutcome.raised "TypeError"

/-! ### Access lemmas for rows and frames -/

theorem getVal_setVal_self (r : Row) (c : String) (v : Cell) :
    getVal (setVal r c v) c = v := by
  induction r with
  | nil => simp [setVal, getVal]
  | cons p t ih =>
    by_cases h : p.1 = c
    · simp [setVal, getVal, h]
    · simp [setVal, getVal, h, ih]

theorem getVal_setVal_ne (r : Row) (c k : String) (v : Cell) (h : k ≠ c) :
    getVal (setVal r c v) k = getVal r k := by
  have hck : c ≠ k := Ne.symm h
  induction r with
  | nil => simp [setVal, getVal, hck]
  | cons p t ih =>
    by_cases hp : p.1 = c
    · have hpk : p.1 ≠ k := fun hh => hck (hp.symm.trans hh)
      simp [setVal, getVal, hp, hck, hpk]
    · simp [setVal, getVal, hp, ih]

theorem setVal_setVal_self (r : Row) (c : String) (v w : Cell) :
    setVal (setVal r c v) c w = setVal r c w := by
  induction r with
  | nil => simp [setVal]
  | cons p t ih =>
    by_cases hp : p.1 = c
    · simp [setVal, hp]
    · simp [setVal, hp, ih]

theorem getVal_filter_not_mem (r : Row) (cs : List String) (k : String)
    (h : k ∉ cs) :
    getVal (r.filter (fun p => decide (p.1 ∉ cs))) k = getVal r k := by
  induction r with
  | nil => rfl
  | cons p t ih =>
    rw [List.filter_cons]
    simp only [decide_not] at ih
    by_cases hmem : p.1 ∈ cs
    · have hne : p.1 ≠ k := fun hh => h (hh ▸ hmem)
      simp [hmem, getVal, hne, ih]
    · simp [hmem, getVal, ih]

theorem getD_map_of_lt {α β : Type} (f : α → β) (dA : α) (dB : β) :
    ∀ (l : List α) (i : Nat), i < l.length → (l.map f).getD i dB = f (l.getD i dA)
  | a :: t, 0, _ => rfl
  | a :: t, i + 1, h =>
    getD_map_of_lt f dA dB t i (Nat.lt_of_succ_lt_succ (by simpa using h))

theorem assignCol_rows_length (df : DataFrame) (c : String) (f : Row → Cell) :
    (assignCol df c f).rows.length = df.rows.length := by
  simp [assignCol]

theorem rowAt_assignCol (df : DataFrame) (c : String) (f : Row → Cell)
    (i : Nat) (hi : i < df.rows.length) :
    rowAt (assignCol df c f) i = setVal (rowAt df i) c (f (rowAt df i)) := by
  unfold rowAt assignCol
  exact getD_map_of_lt (fun r => setVal r c (f r)) [] [] df.rows i hi

theorem colCell_assignCol_self (df : DataFrame) (c : String) (f : Row → Cell)
    (i : Nat) (hi : i < df.rows.length) :
    colCell (assignCol df c f) i c = f (rowAt df i) := by
  unfold colCell
  rw [rowAt_assignCol df c f i hi, getVal_setVal_self]

theorem colCell_assignCol_ne (df : DataFrame) (c k : String) (f : Row → Cell)
    (i : Nat) (hi : i < df.rows.length) (h : k ≠ c) :
    colCell (assignCol df c f) i k = colCell df i k := by
  unfold colCell
  rw [rowAt_assignCol df c f i hi, getVal_setVal_ne _ _ _ _ h]

theorem mapCol_rows_length (df : DataFrame) (c : String) (g : Cell → Cell) :
    (mapCol df c g).rows.length = df.rows.length :=
  assignCol_rows_length df c _

theorem colCell_mapCol_self (df : DataFrame) (c : String) (g : Cell → Cell)
    (i : Nat) (hi : i < df.rows.length) :
    colCell (mapCol df c g) i c = g (colCell df i c) :=
  colCell_assignCol_self df c _ i hi

theorem colCell_mapCol_ne (df : DataFrame) (c k : String) (g : Cell → Cell)
    (i : Nat) (hi : i < df.rows.length) (h : k ≠ c) :
    colCell (mapCol df c g) i k = colCell df i k :=
  colCell_assignCol_ne df c k _ i hi h

theorem assignCol_header_of_mem (df : DataFrame) (c : String) (f : Row → Cell)
    (h : c ∈ df.header) : (assignCol df c f).header = df.header := by
  simp [assignCol, h]

theorem mem_assignCol_header (df : DataFrame) (c k : String) (f : Row → Cell)
    (h : k ∈ df.header) : k ∈ (assignCol df c f).header := by
  by_cases hc : c ∈ df.header
  · simpa [assignCol, hc] using h
  · simp [assignCol, hc, List.mem_append, h]

theorem mapCol_header_of_mem (df : DataFrame) (c : String) (g : Cell → Cell)
    (h : c ∈ df.header) : (mapCol df c g).header = df.header :=
  assignCol_header_of_mem df c _ h

theorem dropColumns_rows_length (df : DataFrame) (cs : List String) :
    (dropColumns df cs).rows.length = df.rows.length := by
  simp [dropColumns]

theorem rowAt_dropColumns (df : DataFrame) (cs : List String) (i : Nat)
    (hi : i < df.rows.length) :
    rowAt (dropColumns df cs) i = (rowAt df i).filter (fun p => decide (p.1 ∉ cs)) := by
  unfold rowAt dropColumns
  exact getD_map_of_lt (fun r => r.filter (fun p => decide (p.1 ∉ cs))) [] [] df.rows i hi

theorem colCell_dropColumns (df : DataFrame) (cs : List String) (k : String)
    (i : Nat) (hi : i < df.rows.length) (h : k ∉ cs) :
    colCell (dropColumns df cs) i k = colCell df i k := by
  unfold colCell
  rw [rowAt_dropColumns df cs i hi, getVal_filter_not_mem _ _ _ h]

theorem mem_dropColumns_header (df : DataFrame) (cs : List String) (k : String)
    (hk : k ∈ df.header) (h : k ∉ cs) : k ∈ (dropColumns df cs).header := by
  simp [dropColumns, List.mem_filter, hk, h]

theorem not_mem_dropColumns_header (df : DataFrame) (cs : List String)
    (k : String) (h : k ∈ cs) : k ∉ (dropColumns df cs).header := by
  simp [dropColumns, List.mem_filter, h]

theorem mem_header_dropColumns_iff (df : DataFrame) (cs : List String)
    (k : String) :
    k ∈ (dropColumns df cs).header ↔ k ∈ df.header ∧ k ∉ cs := by
  simp [dropColumns, List.mem_filter]

theorem mem_guardedDrop_header (df : DataFrame) (cs : List String)
    (k : String) :
    k ∈ (guardedDrop df cs).header ↔ k ∈ df.header ∧ k ∉ cs := by
  unfold guardedDrop
  by_cases he : (cs.filter (fun c => decide (c ∈ df.header))).isEmpty = true
  · rw [if_pos he]
    have hempty : ∀ c ∈ cs, c ∉ df.header := by
      intro c hc hcdf
      have hmem : c ∈ cs.filter (fun c => decide (c ∈ df.header)) :=
        List.mem_filter.mpr ⟨hc, by simpa using hcdf⟩
      rw [List.isEmpty_iff] at he
      rw [he] at hmem
      cases hmem
    constructor
    · intro hk
      exact ⟨hk, fun hkcs => hempty k hkcs hk⟩
    · exact And.left
  · rw [if_neg he, mem_header_dropColumns_iff]
    constructor
    · rintro ⟨hk, hnf⟩
      exact ⟨hk, fun hkcs => hnf (List.mem_filter.mpr ⟨hkcs, by simpa using hk⟩)⟩
    · rintro ⟨hk, hncs⟩
      exact ⟨hk, fun hf => hncs (List.mem_filter.mp hf).1⟩

theorem guardedDrop_rows_length (df : DataFrame) (cs : List String) :
    (guardedDrop df cs).rows.length = df.rows.length := by
  unfold guardedDrop
  by_cases he : (cs.filter (fun c => decide (c ∈ df.header))).isEmpty = true
  · rw [if_pos he]
  · rw [if_neg he]
    exact dropColumns_rows_length df _

theorem colCell_guardedDrop (df : DataFrame) (cs : List String) (k : String)
    (i : Nat) (hi : i < df.rows.length) (hk : k ∉ cs) :
    colCell (guardedDrop df cs) i k = colCell df i k := by
  unfold guardedDrop
  by_cases he : (cs.filter (fun c => decide (c ∈ df.header))).isEmpty = true
  · rw [if_pos he]
  · rw [if_neg he]
    exact colCell_dropColumns df _ k i hi
      (fun hf => hk (List.mem_filter.mp hf).1)

theorem guardedDrop_eq_self (df : DataFrame) (cs : List String)
    (h : ∀ c ∈ cs, c ∉ df.header) : guardedDrop df cs = df := by
  unfold guardedDrop
  have hnil : cs.filter (fun c => decide (c ∈ df.header)) = [] := by
    rw [List.filter_eq_nil_iff]
    intro c hc
    simpa using h c hc
  rw [hnil]
  rfl

theorem iteMapCol_rows_length (df : DataFrame) (c : String) (g : Cell → Cell) :
    (iteMapCol df c g).rows.length = df.rows.length := by
  unfold iteMapCol
  by_cases h : c ∈ df.header
  · rw [if_pos h]
    exact mapCol_rows_length df c g
  · rw [if_neg h]

theorem iteMapCol_header (df : DataFrame) (c : String) (g : Cell → Cell) :
    (iteMapCol df c g).header = df.header := by
  unfold iteMapCol
  by_cases h : c ∈ df.header
  · rw [if_pos h]
    exact mapCol_header_of_mem df c g h
  · rw [if_neg h]

theorem colCell_iteMapCol_ne (df : DataFrame) (c k : String) (g : Cell → Cell)
    (i : Nat) (hi : i < df.rows.length) (hk : k ≠ c) :
    colCell (iteMapCol df c g) i k = colCell df i k := by
  unfold iteMapCol
  by_cases h : c ∈ df.header
  · rw [if_pos h]
    exact colCell_mapCol_ne df c k g i hi hk
  · rw [if_neg h]

theorem colCell_iteMapCol_self (df : DataFrame) (c : String) (g : Cell → Cell)
    (i : Nat) (hi : i < df.rows.length) (h : c ∈ df.header) :
    colCell (iteMapCol df c g) i c = g (colCell df i c) := by
  unfold iteMapCol
  rw [if_pos h]
  exact colCell_mapCol_self df c g i hi

theorem iteMapCol_eq_self (df : DataFrame) (c : String) (g : Cell → Cell)
    (h : c ∉ df.header) : iteMapCol df c g = df := by
  unfold iteMapCol
  rw [if_neg h]

/-! ### C4: column-name standardization -/

/-- C4: `standardize_column_names` maps every column name to its lowercase
form with every dot replaced by an underscore (so `Fixture.Status` becomes
`fixture_status`), and `fixture.id` becomes `fixture_id` via the dedicated
`rename_fixture_id`, which the Bronze step applies before the generic
lowercasing of Silver; the dedicated rename's output is a fixed point of the
generic map, so the later step leaves it untouched. -/
theorem standardize_and_rename_fixture_id_spec (df : DataFrame) :
    (standardize_column_names df).header = df.header.map stdName ∧
    stdName "Fixture.Status" = "fixture_status" ∧
    stdName "fixture_id" = "fixture_id" ∧
    ("fixture.id" ∈ df.header →
      (rename_fixture_id df).header =
        df.header.map (fun c => if c = "fixture.id" then "fixture_id" else c) ∧
      "fixture.id" ∉ (rename_fixture_id df).header ∧
      "fixture_id" ∈ (rename_fixture_id df).header) := by
  refine ⟨rfl, by decide, by decide, fun h => ⟨?_, ?_, ?_⟩⟩
  · simp [rename_fixture_id, h, renameCols]
  · simp only [rename_fixture_id, h, if_true, renameCols, List.mem_map]
    rintro ⟨c, hc, heq⟩
    by_cases hcf : c = "fixture.id"
    · rw [hcf] at heq
      simp at heq
    · simp [hcf] at heq
  · simp only [rename_fixture_id, h, if_true, renameCols, List.mem_map]
    exact ⟨"fixture.id", h, by simp⟩

/-- Witness for C4 at a one-column frame containing `fixture.id`. -/
theorem standardize_and_rename_fixture_id_spec_witness :
    "fixture.id" ∈ (DataFrame.mk ["fixture.id"] []).header ∧
    ((rename_fixture_id (DataFrame.mk ["fixture.id"] [])).header =
        (DataFrame.mk ["fixture.id"] []).header.map
          (fun c => if c = "fixture.id" then "fixture_id" else c) ∧
      "fixture.id" ∉ (rename_fixture_id (DataFrame.mk ["fixture.id"] [])).header ∧
      "fixture_id" ∈ (rename_fixture_id (DataFrame.mk ["fixture.id"] [])).header) :=
  ⟨by decide,
    (standardize_and_rename_fixture_id_spec (DataFrame.mk ["fixture.id"] [])).2.2.2
      (by decide)⟩

/-! ### C9: the winner-flag drop is unconditional -/

/-- C9: `add_match_winner` drops `teams_home_winner` and `teams_away_winner`
whenever they are present, even when `goals_home` or `goals_away` is absent
(the drop sits outside the goals guard), so in that case the input is not
returned unchanged. -/
theorem add_match_winner_always_drops_winner_cols (df : DataFrame) :
    "teams_home_winner" ∉ (add_match_winner df).header ∧
    "teams_away_winner" ∉ (add_match_winner df).header ∧
    ("goals_home" ∉ df.header → "teams_home_winner" ∈ df.header →
      add_match_winner df ≠ df) := by
  have h1 : "teams_home_winner" ∉ (add_match_winner df).header := by
    unfold add_match_winner dropWinnerFlagCols
    intro hmem
    exact ((mem_guardedDrop_header _ _ _).mp hmem).2 (by simp)
  have h2 : "teams_away_winner" ∉ (add_match_winner df).header := by
    unfold add_match_winner dropWinnerFlagCols
    intro hmem
    exact ((mem_guardedDrop_header _ _ _).mp hmem).2 (by simp)
  refine ⟨h1, h2, fun _ hthw heq => ?_⟩
  rw [heq] at h1
  exact h1 hthw

/-- Witness for C9 at a frame holding only `teams_home_winner`. -/
theorem add_match_winner_always_drops_winner_cols_witness :
    "goals_home" ∉ (DataFrame.mk ["teams_home_winner"] []).header ∧
    "teams_home_winner" ∈ (DataFrame.mk ["teams_home_winner"] []).header ∧
    add_match_winner (DataFrame.mk ["teams_home_winner"] []) ≠
      DataFrame.mk ["teams_home_winner"] [] :=
  ⟨by decide, by decide,
    (add_match_winner_always_drops_winner_cols
      (DataFrame.mk ["teams_home_winner"] [])).2.2 (by decide) (by decide)⟩

/-! ### C2: row-wise semantics of `match_winner` and `total_goals` -/

theorem dropWinnerFlagCols_def (df : DataFrame) :
    dropWinnerFlagCols df = guardedDrop df ["teams_home_winner", "teams_away_winner"] :=
  rfl

theorem drop_irrelevant_cols_def (df : DataFrame) :
    drop_irrelevant_cols df = guardedDrop df colsDropList :=
  rfl

/-- Per-row characterization of the two derived Silver columns: after
`add_match_winner` then `add_total_goals` (in pipeline order),
`match_winner` holds the row's `_winner` value and `total_goals` the
null-propagating sum of the two goal cells. -/
theorem silver_derived_cells (df : DataFrame)
    (hgh : "goals_home" ∈ df.header) (hga : "goals_away" ∈ df.header)
    (i : Nat) (hi : i < df.rows.length) :
    colCell (add_total_goals (add_match_winner df)) i "match_winner" =
      winnerCell (colCell df i "goals_home") (colCell df i "goals_away") ∧
    colCell (add_total_goals (add_match_winner df)) i "total_goals" =
      addCells (colCell df i "goals_home") (colCell df i "goals_away") := by
  have hamw : add_match_winner df =
      dropWinnerFlagCols (assignCol df "match_winner"
        (fun r => winnerCell (getVal r "goals_home") (getVal r "goals_away"))) := by
    unfold add_match_winner
    rw [if_pos ⟨hgh, hga⟩]
  have hlen1 : (assignCol df "match_winner"
      (fun r => winnerCell (getVal r "goals_home") (getVal r "goals_away"))).rows.length =
      df.rows.length := assignCol_rows_length df _ _
  have hlen2 : (add_match_winner df).rows.length = df.rows.length := by
    rw [hamw, dropWinnerFlagCols_def, guardedDrop_rows_length, hlen1]
  have hgh2 : "goals_home" ∈ (add_match_winner df).header := by
    rw [hamw, dropWinnerFlagCols_def]
    exact (mem_guardedDrop_header _ _ _).mpr
      ⟨mem_assignCol_header df _ _ _ hgh, by decide⟩
  have hga2 : "goals_away" ∈ (add_match_winner df).header := by
    rw [hamw, dropWinnerFlagCols_def]
    exact (mem_guardedDrop_header _ _ _).mpr
      ⟨mem_assignCol_header df _ _ _ hga, by decide⟩
  have hatg : add_total_goals (add_match_winner df) =
      assignCol (add_match_winner df) "total_goals"
        (fun r => addCells (getVal r "goals_home") (getVal r "goals_away")) := by
    unfold add_total_goals
    rw [if_pos ⟨hgh2, hga2⟩]
  have hmwcell : colCell (add_match_winner df) i "match_winner" =
      winnerCell (colCell df i "goals_home") (colCell df i "goals_away") := by
    rw [hamw, dropWinnerFlagCols_def,
      colCell_guardedDrop _ _ _ i (by rw [hlen1]; exact hi) (by decide),
      colCell_assignCol_self df _ _ i hi]
    rfl
  have hghcell : colCell (add_match_winner df) i "goals_home" =
      colCell df i "goals_home" := by
    rw [hamw, dropWinnerFlagCols_def,
      colCell_guardedDrop _ _ _ i (by rw [hlen1]; exact hi) (by decide),
      colCell_assignCol_ne df _ _ _ i hi (by decide)]
  have hgacell : colCell (add_match_winner df) i "goals_away" =
      colCell df i "goals_away" := by
    rw [hamw, dropWinnerFlagCols_def,
      colCell_guardedDrop _ _ _ i (by rw [hlen1]; exact hi) (by decide),
      colCell_assignCol_ne df _ _ _ i hi (by decide)]
  constructor
  · rw [hatg, colCell_assignCol_ne _ _ _ _ i (by rw [hlen2]; exact hi) (by decide),
      hmwcell]
  · rw [hatg, colCell_assignCol_self _ _ _ i (by rw [hlen2]; exact hi)]
    show addCells (colCell (add_match_winner df) i "goals_home")
        (colCell (add_match_winner df) i "goals_away") = _
    rw [hghcell, hgacell]

/-- C2: for every row of a frame carrying both goal columns, after
`add_match_winner` and `add_total_goals`: goals 2 and 1 give
`match_winner = "Home"` and `total_goals = 3`; equal integer goals give
`"Draw"`; a missing goal on either side leaves both derived cells
missing. -/
theorem match_winner_total_goals_rowwise (df : DataFrame)
    (hgh : "goals_home" ∈ df.header) (hga : "goals_away" ∈ df.header)
    (i : Nat) (hi : i < df.rows.length) :
    ((colCell df i "goals_home" = Cell.int 2 ∧
      colCell df i "goals_away" = Cell.int 1) →
      colCell (add_total_goals (add_match_winner df)) i "match_winner" =
        Cell.str "Home" ∧
      colCell (add_total_goals (add_match_winner df)) i "total_goals" =
        Cell.int 3) ∧
    (∀ n : Int, colCell df i "goals_home" = Cell.int n →
      colCell df i "goals_away" = Cell.int n →
      colCell (add_total_goals (add_match_winner df)) i "match_winner" =
        Cell.str "Draw") ∧
    ((colCell df i "goals_home" = Cell.na ∨ colCell df i "goals_away" = Cell.na) →
      colCell (add_total_goals (add_match_winner df)) i "match_winner" = Cell.na ∧
      colCell (add_total_goals (add_match_winner df)) i "total_goals" = Cell.na) := by
  obtain ⟨hmw, htg⟩ := silver_derived_cells df hgh hga i hi
  refine ⟨?_, ?_, ?_⟩
  · rintro ⟨e1, e2⟩
    rw [hmw, htg, e1, e2]
    exact ⟨by decide, by decide⟩
  · intro n e1 e2
    rw [hmw, e1, e2]
    simp [winnerCell, lt_irrefl]
  · rintro (e | e)
    · rw [hmw, htg, e]
      cases colCell df i "goals_away" <;> exact ⟨rfl, rfl⟩
    · rw [hmw, htg, e]
      cases colCell df i "goals_home" <;> exact ⟨rfl, rfl⟩

/-- Witness for C2 at a one-row frame with goals 2 and 1. -/
theorem match_winner_total_goals_rowwise_witness :
    "goals_home" ∈ (DataFrame.mk ["goals_home", "goals_away"]
      [[("goals_home", Cell.int 2), ("goals_away", Cell.int 1)]]).header ∧
    "goals_away" ∈ (DataFrame.mk ["goals_home", "goals_away"]
      [[("goals_home", Cell.int 2), ("goals_away", Cell.int 1)]]).header ∧
    0 < (DataFrame.mk ["goals_home", "goals_away"]
      [[("goals_home", Cell.int 2), ("goals_away", Cell.int 1)]]).rows.length ∧
    (colCell (add_total_goals (add_match_winner (DataFrame.mk
        ["goals_home", "goals_away"]
        [[("goals_home", Cell.int 2), ("goals_away", Cell.int 1)]]))) 0
        "match_winner" = Cell.str "Home" ∧
      colCell (add_total_goals (add_match_winner (DataFrame.mk
        ["goals_home", "goals_away"]
        [[("goals_home", Cell.int 2), ("goals_away", Cell.int 1)]]))) 0
        "total_goals" = Cell.int 3) :=
  ⟨by decide, by decide, by decide,
    (match_winner_total_goals_rowwise (DataFrame.mk ["goals_home", "goals_away"]
        [[("goals_home", Cell.int 2), ("goals_away", Cell.int 1)]])
      (by decide) (by decide) 0 (by decide)).1 ⟨by decide, by decide⟩⟩

/-! ### C5: datetime normalization -/

/-- C5: on a frame with a `fixture_date` column, `format_datetime_columns`
parses it as a UTC timestamp and floors it to the minute (so
`"2024-05-01T12:34:56Z"` becomes the instant `2024-05-01T12:34:00Z`, epoch
second 1714566840); `fixture_periods_first` and `fixture_periods_second`,
when present, are likewise parsed from UNIX epoch seconds as UTC and
floored to the minute. -/
theorem format_datetime_columns_spec (df : DataFrame)
    (h : "fixture_date" ∈ df.header) :
    (∀ i, i < df.rows.length →
      colCell (format_datetime_columns df) i "fixture_date" =
        floorMinuteCell (toDatetimeCell (colCell df i "fixture_date"))) ∧
    ("fixture_periods_first" ∈ df.header → ∀ i, i < df.rows.length →
      colCell (format_datetime_columns df) i "fixture_periods_first" =
        floorMinuteCell (epochSecCell (colCell df i "fixture_periods_first"))) ∧
    ("fixture_periods_second" ∈ df.header → ∀ i, i < df.rows.length →
      colCell (format_datetime_columns df) i "fixture_periods_second" =
        floorMinuteCell (epochSecCell (colCell df i "fixture_periods_second"))) ∧
    floorMinuteCell (toDatetimeCell (Cell.str "2024-05-01T12:34:56Z")) =
      toDatetimeCell (Cell.str "2024-05-01T12:34:00Z") ∧
    toDatetimeCell (Cell.str "2024-05-01T12:34:00Z") = Cell.ts 1714566840 := by
  set g1 : Cell → Cell := fun v => floorMinuteCell (toDatetimeCell v) with hg1
  set g2 : Cell → Cell := fun v => floorMinuteCell (epochSecCell v) with hg2
  set A := iteMapCol df "fixture_date" g1 with hAdef
  set B := iteMapCol A "fixture_periods_first" g2 with hBdef
  have hfmt : format_datetime_columns df = iteMapCol B "fixture_periods_second" g2 := rfl
  have hlenA : A.rows.length = df.rows.length := iteMapCol_rows_length df _ _
  have hlenB : B.rows.length = df.rows.length := by
    rw [hBdef, iteMapCol_rows_length, hlenA]
  have hhdrA : A.header = df.header := iteMapCol_header df _ _
  have hhdrB : B.header = df.header := by
    rw [hBdef, iteMapCol_header, hhdrA]
  refine ⟨?_, ?_, ?_, by decide, by decide⟩
  · intro i hi
    rw [hfmt,
      colCell_iteMapCol_ne B "fixture_periods_second" "fixture_date" g2 i
        (by rw [hlenB]; exact hi) (by decide),
      hBdef,
      colCell_iteMapCol_ne A "fixture_periods_first" "fixture_date" g2 i
        (by rw [hlenA]; exact hi) (by decide),
      hAdef,
      colCell_iteMapCol_self df "fixture_date" g1 i hi h]
  · intro hpf i hi
    rw [hfmt,
      colCell_iteMapCol_ne B "fixture_periods_second" "fixture_periods_first" g2 i
        (by rw [hlenB]; exact hi) (by decide),
      hBdef,
      colCell_iteMapCol_self A "fixture_periods_first" g2 i
        (by rw [hlenA]; exact hi) (by rw [hhdrA]; exact hpf),
      hAdef,
      colCell_iteMapCol_ne df "fixture_date" "fixture_periods_first" g1 i hi
        (by decide)]
  · intro hps i hi
    rw [hfmt,
      colCell_iteMapCol_self B "fixture_periods_second" g2 i
        (by rw [hlenB]; exact hi) (by rw [hhdrB]; exact hps),
      hBdef,
      colCell_iteMapCol_ne A "fixture_periods_first" "fixture_periods_second" g2 i
        (by rw [hlenA]; exact hi) (by decide),
      hAdef,
      colCell_iteMapCol_ne df "fixture_date" "fixture_periods_second" g1 i hi
        (by decide)]

/-- Witness for C5 at a one-row frame with a string `fixture_date` and an
epoch-second `fixture_periods_first`. -/
theorem format_datetime_columns_spec_witness :
    "fixture_date" ∈ (DataFrame.mk ["fixture_date", "fixture_periods_first"]
      [[("fixture_date", Cell.str "2024-05-01T12:34:56Z"),
        ("fixture_periods_first", Cell.int 1714566896)]]).header ∧
    "fixture_periods_first" ∈ (DataFrame.mk ["fixture_date", "fixture_periods_first"]
      [[("fixture_date", Cell.str "2024-05-01T12:34:56Z"),
        ("fixture_periods_first", Cell.int 1714566896)]]).header ∧
    0 < (DataFrame.mk ["fixture_date", "fixture_periods_first"]
      [[("fixture_date", Cell.str "2024-05-01T12:34:56Z"),
        ("fixture_periods_first", Cell.int 1714566896)]]).rows.length ∧
    colCell (format_datetime_columns (DataFrame.mk
      ["fixture_date", "fixture_periods_first"]
      [[("fixture_date", Cell.str "2024-05-01T12:34:56Z"),
        ("fixture_periods_first", Cell.int 1714566896)]])) 0 "fixture_date" =
      floorMinuteCell (toDatetimeCell (colCell (DataFrame.mk
      ["fixture_date", "fixture_periods_first"]
      [[("fixture_date", Cell.str "2024-05-01T12:34:56Z"),
        ("fixture_periods_first", Cell.int 1714566896)]]) 0 "fixture_date")) ∧
    colCell (format_datetime_columns (DataFrame.mk
      ["fixture_date", "fixture_periods_first"]
      [[("fixture_date", Cell.str "2024-05-01T12:34:56Z"),
        ("fixture_periods_first", Cell.int 1714566896)]])) 0 "fixture_periods_first" =
      floorMinuteCell (epochSecCell (colCell (DataFrame.mk
      ["fixture_date", "fixture_periods_first"]
      [[("fixture_date", Cell.str "2024-05-01T12:34:56Z"),
        ("fixture_periods_first", Cell.int 1714566896)]]) 0 "fixture_periods_first")) :=
  ⟨by decide, by decide, by decide,
    (format_datetime_columns_spec (DataFrame.mk
      ["fixture_date", "fixture_periods_first"]
      [[("fixture_date", Cell.str "2024-05-01T12:34:56Z"),
        ("fixture_periods_first", Cell.int 1714566896)]]) (by decide)).1 0 (by decide),
    (format_datetime_columns_spec (DataFrame.mk
      ["fixture_date", "fixture_periods_first"]
      [[("fixture_date", Cell.str "2024-05-01T12:34:56Z"),
        ("fixture_periods_first", Cell.int 1714566896)]]) (by decide)).2.1
      (by decide) 0 (by decide)⟩

/-! ### C10: `event_date` derivation prefers `fixture.date` -/

/-- C10: when both `fixture.date` and `fixture_date` are present,
`add_event_date_from_fixture_date` derives `event_date` exclusively from
`fixture.date` (parsed in place), leaving `fixture_date` unparsed; only
when `fixture.date` is absent is `fixture_date` parsed and used. -/
theorem add_event_date_prefers_fixture_dot_date (df : DataFrame) :
    (("fixture.date" ∈ df.header ∧ "fixture_date" ∈ df.header) →
      ∀ i, i < df.rows.length →
        colCell (add_event_date_from_fixture_date df) i "fixture_date" =
          colCell df i "fixture_date" ∧
        colCell (add_event_date_from_fixture_date df) i "event_date" =
          dateCell (toDatetimeCell (colCell df i "fixture.date"))) ∧
    (("fixture.date" ∉ df.header ∧ "fixture_date" ∈ df.header) →
      ∀ i, i < df.rows.length →
        colCell (add_event_date_from_fixture_date df) i "fixture_date" =
          toDatetimeCell (colCell df i "fixture_date") ∧
        colCell (add_event_date_from_fixture_date df) i "event_date" =
          dateCell (toDatetimeCell (colCell df i "fixture_date"))) := by
  constructor
  · rintro ⟨h1, _⟩ i hi
    have hdef : add_event_date_from_fixture_date df =
        assignCol (mapCol df "fixture.date" toDatetimeCell) "event_date"
          (fun r => dateCell (getVal r "fixture.date")) := by
      unfold add_event_date_from_fixture_date
      rw [if_pos h1]
    have hlen : (mapCol df "fixture.date" toDatetimeCell).rows.length =
        df.rows.length := mapCol_rows_length df _ _
    constructor
    · rw [hdef, colCell_assignCol_ne _ _ _ _ i (by rw [hlen]; exact hi) (by decide),
        colCell_mapCol_ne df _ _ _ i hi (by decide)]
    · rw [hdef, colCell_assignCol_self _ _ _ i (by rw [hlen]; exact hi)]
      show dateCell (colCell (mapCol df "fixture.date" toDatetimeCell) i "fixture.date") = _
      rw [colCell_mapCol_self df _ _ i hi]
  · rintro ⟨h1, h2⟩ i hi
    have hdef : add_event_date_from_fixture_date df =
        assignCol (mapCol df "fixture_date" toDatetimeCell) "event_date"
          (fun r => dateCell (getVal r "fixture_date")) := by
      unfold add_event_date_from_fixture_date
      rw [if_neg h1, if_pos h2]
    have hlen : (mapCol df "fixture_date" toDatetimeCell).rows.length =
        df.rows.length := mapCol_rows_length df _ _
    constructor
    · rw [hdef, colCell_assignCol_ne _ _ _ _ i (by rw [hlen]; exact hi) (by decide),
        colCell_mapCol_self df _ _ i hi]
    · rw [hdef, colCell_assignCol_self _ _ _ i (by rw [hlen]; exact hi)]
      show dateCell (colCell (mapCol df "fixture_date" toDatetimeCell) i "fixture_date") = _
      rw [colCell_mapCol_self df _ _ i hi]

/-- Witness for C10 at a one-row frame carrying both date columns with
different values. -/
theorem add_event_date_prefers_fixture_dot_date_witness :
    ("fixture.date" ∈ (DataFrame.mk ["fixture.date", "fixture_date"]
        [[("fixture.date", Cell.str "2024-05-01T12:34:56Z"),
          ("fixture_date", Cell.str "1999-01-02T03:04:05Z")]]).header ∧
      "fixture_date" ∈ (DataFrame.mk ["fixture.date", "fixture_date"]
        [[("fixture.date", Cell.str "2024-05-01T12:34:56Z"),
          ("fixture_date", Cell.str "1999-01-02T03:04:05Z")]]).header) ∧
    0 < (DataFrame.mk ["fixture.date", "fixture_date"]
        [[("fixture.date", Cell.str "2024-05-01T12:34:56Z"),
          ("fixture_date", Cell.str "1999-01-02T03:04:05Z")]]).rows.length ∧
    (colCell (add_event_date_from_fixture_date (DataFrame.mk
        ["fixture.date", "fixture_date"]
        [[("fixture.date", Cell.str "2024-05-01T12:34:56Z"),
          ("fixture_date", Cell.str "1999-01-02T03:04:05Z")]])) 0 "fixture_date" =
        colCell (DataFrame.mk ["fixture.date", "fixture_date"]
        [[("fixture.date", Cell.str "2024-05-01T12:34:56Z"),
          ("fixture_date", Cell.str "1999-01-02T03:04:05Z")]]) 0 "fixture_date" ∧
      colCell (add_event_date_from_fixture_date (DataFrame.mk
        ["fixture.date", "fixture_date"]
        [[("fixture.date", Cell.str "2024-05-01T12:34:56Z"),
          ("fixture_date", Cell.str "1999-01-02T03:04:05Z")]])) 0 "event_date" =
        dateCell (toDatetimeCell (colCell (DataFrame.mk
        ["fixture.date", "fixture_date"]
        [[("fixture.date", Cell.str "2024-05-01T12:34:56Z"),
          ("fixture_date", Cell.str "1999-01-02T03:04:05Z")]]) 0 "fixture.date"))) :=
  ⟨⟨by decide, by decide⟩, by decide,
    (add_event_date_prefers_fixture_dot_date (DataFrame.mk
        ["fixture.date", "fixture_date"]
        [[("fixture.date", Cell.str "2024-05-01T12:34:56Z"),
          ("fixture_date", Cell.str "1999-01-02T03:04:05Z")]])).1
      ⟨by decide, by decide⟩ 0 (by decide)⟩

/-! ### C3: the column-presence guard -/

/-- C3 counterexample: `add_match_winner` on a frame lacking the referenced
column `goals_home` does not return the frame unchanged — the winner-flag
drop still fires, so the claim that every Silver/Gold transform is a no-op
on any frame lacking a referenced column is false as stated. -/
theorem column_presence_guard_counterexample :
    "goals_home" ∉ (DataFrame.mk ["teams_home_winner"]
      [[("teams_home_winner", Cell.str "true")]]).header ∧
    add_match_winner (DataFrame.mk ["teams_home_winner"]
      [[("teams_home_winner", Cell.str "true")]]) ≠
      DataFrame.mk ["teams_home_winner"] [[("teams_home_winner", Cell.str "true")]] :=
  ⟨by decide, by decide⟩

/-- C3 amended: each Silver/Gold transform returns its input unchanged (and
raises nothing — every transform is a total function) when the frame
contains none of the columns that transform references. -/
theorem silver_gold_transforms_noop_on_all_missing (df : DataFrame) :
    ((∀ c ∈ ["fixture_date", "fixture_periods_first", "fixture_periods_second"],
        c ∉ df.header) → format_datetime_columns df = df) ∧
    ((∀ c ∈ colsDropList, c ∉ df.header) → drop_irrelevant_cols df = df) ∧
    ((∀ c ∈ ["goals_home", "goals_away", "teams_home_winner", "teams_away_winner"],
        c ∉ df.header) → add_match_winner df = df) ∧
    ((∀ c ∈ ["goals_home", "goals_away"], c ∉ df.header) →
      add_total_goals df = df) ∧
    ((∀ c ∈ numericCastCols ++ stringCastCols, c ∉ df.header) →
      cast_column_types df = df) ∧
    ((∀ c ∈ categoricalCols, c ∉ df.header) → cast_gold_categoricals df = df) ∧
    ("event_date" ∉ df.header → ensure_event_date_utc df = df) := by
  refine ⟨?_, ?_, ?_, ?_, ?_, ?_, ?_⟩
  · intro hr
    unfold format_datetime_columns
    rw [iteMapCol_eq_self df _ _ (hr "fixture_date" (by decide)),
      iteMapCol_eq_self df _ _ (hr "fixture_periods_first" (by decide)),
      iteMapCol_eq_self df _ _ (hr "fixture_periods_second" (by decide))]
  · intro hr
    rw [drop_irrelevant_cols_def]
    exact guardedDrop_eq_self df _ hr
  · intro hr
    unfold add_match_winner
    rw [if_neg (fun hand => hr "goals_home" (by decide) hand.1),
      dropWinnerFlagCols_def]
    refine guardedDrop_eq_self df _ ?_
    intro c hc
    simp only [List.mem_cons, List.not_mem_nil, or_false] at hc
    rcases hc with rfl | rfl
    · exact hr "teams_home_winner" (by decide)
    · exact hr "teams_away_winner" (by decide)
  · intro hr
    unfold add_total_goals
    rw [if_neg (fun hand => hr "goals_home" (by decide) hand.1)]
  · intro hr
    have hnum : numericCastCols.filter (fun c => decide (c ∈ df.header)) = [] := by
      rw [List.filter_eq_nil_iff]
      intro c hc
      simpa using hr c (List.mem_append_left _ hc)
    have hstr : stringCastCols.filter (fun c => decide (c ∈ df.header)) = [] := by
      rw [List.filter_eq_nil_iff]
      intro c hc
      simpa using hr c (List.mem_append_right _ hc)
    unfold cast_column_types
    rw [hnum, hstr]
    rfl
  · intro hr
    have hcat : categoricalCols.filter (fun c => decide (c ∈ df.header)) = [] := by
      rw [List.filter_eq_nil_iff]
      intro c hc
      simpa using hr c hc
    unfold cast_gold_categoricals
    rw [hcat]
    rfl
  · intro h
    exact iteMapCol_eq_self df "event_date" toDatetimeCell h

/-- Witness for the amended C3 at a frame whose single column is referenced
by no transform. -/
theorem silver_gold_transforms_noop_on_all_missing_witness :
    (∀ c ∈ ["fixture_date", "fixture_periods_first", "fixture_periods_second"],
      c ∉ (DataFrame.mk ["league_id"] []).header) ∧
    (∀ c ∈ colsDropList, c ∉ (DataFrame.mk ["league_id"] []).header) ∧
    (∀ c ∈ ["goals_home", "goals_away", "teams_home_winner", "teams_away_winner"],
      c ∉ (DataFrame.mk ["league_id"] []).header) ∧
    (∀ c ∈ numericCastCols ++ stringCastCols,
      c ∉ (DataFrame.mk ["league_id"] []).header) ∧
    format_datetime_columns (DataFrame.mk ["league_id"] []) =
      DataFrame.mk ["league_id"] [] ∧
    drop_irrelevant_cols (DataFrame.mk ["league_id"] []) =
      DataFrame.mk ["league_id"] [] ∧
    add_match_winner (DataFrame.mk ["league_id"] []) =
      DataFrame.mk ["league_id"] [] ∧
    add_total_goals (DataFrame.mk ["league_id"] []) =
      DataFrame.mk ["league_id"] [] ∧
    cast_column_types (DataFrame.mk ["league_id"] []) =
      DataFrame.mk ["league_id"] [] ∧
    cast_gold_categoricals (DataFrame.mk ["league_id"] []) =
      DataFrame.mk ["league_id"] [] ∧
    ensure_event_date_utc (DataFrame.mk ["league_id"] []) =
      DataFrame.mk ["league_id"] [] :=
  ⟨by decide, by decide, by decide, by decide,
    (silver_gold_transforms_noop_on_all_missing (DataFrame.mk ["league_id"] [])).1
      (by decide),
    (silver_gold_transforms_noop_on_all_missing (DataFrame.mk ["league_id"] [])).2.1
      (by decide),
    (silver_gold_transforms_noop_on_all_missing (DataFrame.mk ["league_id"] [])).2.2.1
      (by decide),
    (silver_gold_transforms_noop_on_all_missing (DataFrame.mk ["league_id"] [])).2.2.2.1
      (by decide),
    (silver_gold_transforms_noop_on_all_missing (DataFrame.mk ["league_id"] [])).2.2.2.2.1
      (by decide),
    (silver_gold_transforms_noop_on_all_missing (DataFrame.mk ["league_id"] [])).2.2.2.2.2.1
      (by decide),
    (silver_gold_transforms_noop_on_all_missing (DataFrame.mk ["league_id"] [])).2.2.2.2.2.2
      (by decide)⟩

/-! ### C6: reading the most recent partition -/

/-- C6: `read_most_recent_partition` called on day `D` keeps exactly the
rows whose `event_date` equals `D-1` rendered as `YYYY-MM-DD` (every row of
the result carries that value), and a table that cannot be read raises
instead of yielding an empty result. -/
theorem read_most_recent_partition_spec (today : Date) :
    read_most_recent_partition today none =
      ReadResult.raised "No se pudo procesar la tabla Delta Lake" ∧
    ∀ df : DataFrame,
      read_most_recent_partition today (some df) =
        ReadResult.ok ⟨df.header, df.rows.filter (fun r =>
          decide (getVal r "event_date" =
            Cell.str (formatDate (prevDay today))))⟩ ∧
      ∀ r ∈ df.rows.filter (fun r =>
          decide (getVal r "event_date" = Cell.str (formatDate (prevDay today)))),
        getVal r "event_date" = Cell.str (formatDate (prevDay today)) := by
  refine ⟨rfl, fun df => ⟨rfl, fun r hr => ?_⟩⟩
  have hm := List.mem_filter.mp hr
  simpa using hm.2

/-- Witness for C6 on 2024-05-02 with a two-row table: only the
2024-05-01 row survives, and the missing table raises. -/
theorem read_most_recent_partition_spec_witness :
    read_most_recent_partition (Date.mk 2024 5 2) none =
      ReadResult.raised "No se pudo procesar la tabla Delta Lake" ∧
    read_most_recent_partition (Date.mk 2024 5 2)
        (some (DataFrame.mk ["event_date", "fixture_id"]
          [[("event_date", Cell.str "2024-05-01"), ("fixture_id", Cell.int 1)],
           [("event_date", Cell.str "2024-04-30"), ("fixture_id", Cell.int 2)]])) =
      ReadResult.ok ⟨["event_date", "fixture_id"],
        ((DataFrame.mk ["event_date", "fixture_id"]
          [[("event_date", Cell.str "2024-05-01"), ("fixture_id", Cell.int 1)],
           [("event_date", Cell.str "2024-04-30"), ("fixture_id", Cell.int 2)]]).rows.filter
          (fun r => decide (getVal r "event_date" =
            Cell.str (formatDate (prevDay (Date.mk 2024 5 2))))))⟩ ∧
    [("event_date", Cell.str "2024-05-01"), ("fixture_id", Cell.int 1)] ∈
      ((DataFrame.mk ["event_date", "fixture_id"]
        [[("event_date", Cell.str "2024-05-01"), ("fixture_id", Cell.int 1)],
         [("event_date", Cell.str "2024-04-30"), ("fixture_id", Cell.int 2)]]).rows.filter
        (fun r => decide (getVal r "event_date" =
          Cell.str (formatDate (prevDay (Date.mk 2024 5 2)))))) ∧
    getVal [("event_date", Cell.str "2024-05-01"), ("fixture_id", Cell.int 1)]
        "event_date" =
      Cell.str (formatDate (prevDay (Date.mk 2024 5 2))) :=
  ⟨(read_most_recent_partition_spec (Date.mk 2024 5 2)).1,
    ((read_most_recent_partition_spec (Date.mk 2024 5 2)).2
      (DataFrame.mk ["event_date", "fixture_id"]
        [[("event_date", Cell.str "2024-05-01"), ("fixture_id", Cell.int 1)],
         [("event_date", Cell.str "2024-04-30"), ("fixture_id", Cell.int 2)]])).1,
    by decide,
    ((read_most_recent_partition_spec (Date.mk 2024 5 2)).2
      (DataFrame.mk ["event_date", "fixture_id"]
        [[("event_date", Cell.str "2024-05-01"), ("fixture_id", Cell.int 1)],
         [("event_date", Cell.str "2024-04-30"), ("fixture_id", Cell.int 2)]])).2
      [("event_date", Cell.str "2024-05-01"), ("fixture_id", Cell.int 1)]
      (by decide)⟩

/-! ### C7: shape errors in `get_data` -/

/-- C7 counterexample: with a parseable JSON body that lacks the expected
`response` field, `get_data` raises `KeyError` (the subscript `data[field]`
is outside the `except ValueError` net) instead of returning `None`, so the
claim that a missing field is surfaced as a null result is false. -/
theorem get_data_missing_field_counterexample :
    get_data_after_response (some (Json.obj [("errors", Json.arr [])]))
        (some "response") = GetDataOutcome.raised "KeyError" ∧
    get_data_after_response (some (Json.obj [("errors", Json.arr [])]))
        (some "response") ≠ GetDataOutcome.noneResult := by
  have h1 : get_data_after_response (some (Json.obj [("errors", Json.arr [])]))
      (some "response") = GetDataOutcome.raised "KeyError" := rfl
  refine ⟨h1, ?_⟩
  rw [h1]
  intro h
  cases h

/-- C7 amended: an unparseable response body is caught and surfaced as a
`None` return, but an absent expected field escapes as an uncaught
`KeyError` — only the invalid-JSON half of the shape-error taxonomy is
surfaced as a null result from `get_data`. -/
theorem get_data_shape_error_behavior (f : String) (hf : f ≠ "")
    (fields : List (String × Json)) (hmiss : findField fields f = none) :
    get_data_after_response none (some f) = GetDataOutcome.noneResult ∧
    get_data_after_response none none = GetDataOutcome.noneResult ∧
    get_data_after_response (some (Json.obj fields)) (some f) =
      GetDataOutcome.raised "KeyError" := by
  refine ⟨rfl, rfl, ?_⟩
  simp [get_data_after_response, hf, hmiss]

/-- Witness for the amended C7 with field `response` missing from the
object body. -/
theorem get_data_shape_error_behavior_witness :
    "response" ≠ "" ∧
    findField [("errors", Json.arr [])] "response" = none ∧
    (get_data_after_response none (some "response") = GetDataOutcome.noneResult ∧
    get_data_after_response none none = GetDataOutcome.noneResult ∧
    get_data_after_response (some (Json.obj [("errors", Json.arr [])]))
        (some "response") = GetDataOutcome.raised "KeyError") :=
  ⟨by decide, rfl,
    get_data_shape_error_behavior "response" (by decide)
      [("errors", Json.arr [])] rfl⟩

/-! ### C1: idempotence of the merge-insert-only save -/

theorem sqlCellEq_eq_true_iff (x y : Cell) (hy : y ≠ Cell.na) :
    sqlCellEq x y = true ↔ x = y := by
  cases y with
  | na => exact absurd rfl hy
  | int i => cases x <;> simp [sqlCellEq]
  | str s => cases x <;> simp [sqlCellEq]
  | ts t => cases x <;> simp [sqlCellEq]
  | date d => cases x <;> simp [sqlCellEq]
  | cat s => cases x <;> simp [sqlCellEq]

theorem sqlCellEq_self (x : Cell) (hx : x ≠ Cell.na) : sqlCellEq x x = true :=
  (sqlCellEq_eq_true_iff x x hx).mpr rfl

theorem rowMatchesTarget_append (t1 t2 : List Row) (s : Row) :
    rowMatchesTarget (t1 ++ t2) s =
      (rowMatchesTarget t1 s || rowMatchesTarget t2 s) := by
  unfold rowMatchesTarget
  exact List.any_append

theorem rowMatchesTarget_of_mem (target : List Row) (s : Row)
    (hs : s ∈ target) (hkey : getVal s "fixture_id" ≠ Cell.na) :
    rowMatchesTarget target s = true :=
  List.any_eq_true.mpr ⟨s, hs, sqlCellEq_self _ hkey⟩

/-- C1 counterexample: a source row whose `fixture_id` is missing never
matches the predicate (`NULL = NULL` is not satisfied in the merge engine),
so running the merge-insert a second time inserts the row again — the
two-run table differs from the one-run table, and duplicate rows appear. -/
theorem save_new_data_null_key_counterexample :
    save_new_data_as_delta [[("fixture_id", Cell.na)]]
        (some (save_new_data_as_delta [[("fixture_id", Cell.na)]] (some []))) ≠
      save_new_data_as_delta [[("fixture_id", Cell.na)]] (some []) := by
  decide

/-- C1 amended: provided every source row carries a non-null `fixture_id`,
`save_new_data_as_delta` is idempotent — a second identical call returns
the same table; every existing target row is left untouched (the result is
the target followed by inserted rows whose keys match no target row); and
when neither the target nor the source carries duplicate keys, the result
carries none. -/
theorem save_new_data_as_delta_idempotent (d : List Row) (t : Option (List Row))
    (hkeys : ∀ r ∈ d, getVal r "fixture_id" ≠ Cell.na) :
    save_new_data_as_delta d (some (save_new_data_as_delta d t)) =
      save_new_data_as_delta d t ∧
    (∀ target, t = some target →
      ∃ ins, save_new_data_as_delta d t = target ++ ins ∧
        ∀ s ∈ ins, ∀ tr ∈ target,
          getVal tr "fixture_id" ≠ getVal s "fixture_id") ∧
    (∀ target, t = some target →
      (target.map (fun r => getVal r "fixture_id")).Nodup →
      (d.map (fun r => getVal r "fixture_id")).Nodup →
      ((save_new_data_as_delta d t).map (fun r => getVal r "fixture_id")).Nodup) ∧
    ((d.map (fun r => getVal r "fixture_id")).Nodup →
      ((save_new_data_as_delta d none).map (fun r => getVal r "fixture_id")).Nodup) := by
  cases t with
  | none =>
    refine ⟨?_, fun target h => Option.noConfusion h,
      fun target h => Option.noConfusion h, fun hd => hd⟩
    show d ++ d.filter (fun s => !(rowMatchesTarget d s)) = d
    have hnil : d.filter (fun s => !(rowMatchesTarget d s)) = [] := by
      rw [List.filter_eq_nil_iff]
      intro s hs
      simp [rowMatchesTarget_of_mem d s hs (hkeys s hs)]
    rw [hnil, List.append_nil]
  | some target =>
    have hins : ∀ s ∈ d.filter (fun s => !(rowMatchesTarget target s)),
        ∀ tr ∈ target, getVal tr "fixture_id" ≠ getVal s "fixture_id" := by
      intro s hs tr htr heq
      rcases List.mem_filter.mp hs with ⟨hsd, hmatch⟩
      have hfalse : rowMatchesTarget target s = false := by
        cases hval : rowMatchesTarget target s
        · rfl
        · rw [hval] at hmatch
          cases hmatch
      have hsql : sqlCellEq (getVal tr "fixture_id") (getVal s "fixture_id") = false := by
        simpa using List.any_eq_false.mp hfalse tr htr
      rw [(sqlCellEq_eq_true_iff _ _ (hkeys s hsd)).mpr heq] at hsql
      cases hsql
    refine ⟨?_, ?_, ?_, fun hd => hd⟩
    · show (target ++ d.filter (fun s => !(rowMatchesTarget target s))) ++
          d.filter (fun s => !(rowMatchesTarget
            (target ++ d.filter (fun s => !(rowMatchesTarget target s))) s)) =
          target ++ d.filter (fun s => !(rowMatchesTarget target s))
      have hnil : d.filter (fun s => !(rowMatchesTarget
          (target ++ d.filter (fun s => !(rowMatchesTarget target s))) s)) = [] := by
        rw [List.filter_eq_nil_iff]
        intro s hs
        have hmatch2 : rowMatchesTarget
            (target ++ d.filter (fun s => !(rowMatchesTarget target s))) s = true := by
          rw [rowMatchesTarget_append]
          cases hval : rowMatchesTarget target s
          · have hmem : s ∈ d.filter (fun s => !(rowMatchesTarget target s)) :=
              List.mem_filter.mpr ⟨hs, by simp [hval]⟩
            have := rowMatchesTarget_of_mem _ s hmem (hkeys s hs)
            simp [this]
          · simp
        simp [hmatch2]
      rw [hnil, List.append_nil]
    · intro target2 heq
      have htgt : target2 = target := (Option.some.inj heq).symm
      subst htgt
      exact ⟨d.filter (fun s => !(rowMatchesTarget target2 s)), rfl, hins⟩
    · intro target2 heq htnodup hdnodup
      have htgt : target2 = target := (Option.some.inj heq).symm
      subst htgt
      show ((target2 ++ d.filter (fun s => !(rowMatchesTarget target2 s))).map
        (fun r => getVal r "fixture_id")).Nodup
      rw [List.map_append, List.nodup_append]
      refine ⟨htnodup, ?_, ?_⟩
      · exact hdnodup.sublist
          ((List.filter_sublist d).map (fun r => getVal r "fixture_id"))
      · intro x hxt hxi
        rcases List.mem_map.mp hxt with ⟨tr, htr, hxtr⟩
        rcases List.mem_map.mp hxi with ⟨s, hsmem, hxs⟩
        exact hins s hsmem tr htr (hxtr.trans hxs.symm)

/-- Witness for the amended C1 at a one-row target and a two-row source
sharing one key with the target. -/
theorem save_new_data_as_delta_idempotent_witness :
    (∀ r ∈ [[("fixture_id", Cell.int 1), ("v", Cell.int 10)],
            [("fixture_id", Cell.int 2), ("v", Cell.int 20)]],
      getVal r "fixture_id" ≠ Cell.na) ∧
    save_new_data_as_delta
        [[("fixture_id", Cell.int 1), ("v", Cell.int 10)],
         [("fixture_id", Cell.int 2), ("v", Cell.int 20)]]
        (some (save_new_data_as_delta
          [[("fixture_id", Cell.int 1), ("v", Cell.int 10)],
           [("fixture_id", Cell.int 2), ("v", Cell.int 20)]]
          (some [[("fixture_id", Cell.int 1), ("v", Cell.int 99)]]))) =
      save_new_data_as_delta
        [[("fixture_id", Cell.int 1), ("v", Cell.int 10)],
         [("fixture_id", Cell.int 2), ("v", Cell.int 20)]]
        (some [[("fixture_id", Cell.int 1), ("v", Cell.int 99)]]) :=
  ⟨by decide,
    (save_new_data_as_delta_idempotent
      [[("fixture_id", Cell.int 1), ("v", Cell.int 10)],
       [("fixture_id", Cell.int 2), ("v", Cell.int 20)]]
      (some [[("fixture_id", Cell.int 1), ("v", Cell.int 99)]])
      (by decide)).1⟩

/-! ### C8: idempotence of the Silver type cast -/

theorem map_id_fun {α : Type} (l : List α) : l.map (fun a => a) = l := by
  induction l with
  | nil => rfl
  | cons a t ih => simp [ih]

theorem map_congr_fun {α β : Type} (l : List α) (f g : α → β)
    (h : ∀ a, f a = g a) : l.map f = l.map g := by
  induction l with
  | nil => rfl
  | cons a t ih => simp [h a, ih]

theorem dataFrame_eq : ∀ (a b : DataFrame),
    a.header = b.header → a.rows = b.rows → a = b
  | ⟨h1, r1⟩, ⟨h2, r2⟩, hh, hr => by
    cases hh
    cases hr
    rfl

/-- Per-row effect of `astypeAll`: fold the per-column cast over the row. -/
def rowAstype (cs : List String) (f : Cell → Cell) (r : Row) : Row :=
  cs.foldl (fun r c => setVal r c (f (getVal r c))) r

theorem rowAstype_nil (f : Cell → Cell) : rowAstype [] f = fun r => r := rfl

theorem rowAstype_cons (c : String) (t : List String) (f : Cell → Cell)
    (r : Row) :
    rowAstype (c :: t) f r = rowAstype t f (setVal r c (f (getVal r c))) := rfl

theorem astypeAll_rows (f : Cell → Cell) :
    ∀ (cs : List String) (df : DataFrame),
      (astypeAll df cs f).rows = df.rows.map (rowAstype cs f)
  | [], df => by
    show df.rows = df.rows.map (rowAstype [] f)
    rw [rowAstype_nil, map_id_fun]
  | c :: t, df => by
    show (astypeAll (mapCol df c f) t f).rows = df.rows.map (rowAstype (c :: t) f)
    rw [astypeAll_rows f t (mapCol df c f)]
    show (df.rows.map (fun r => setVal r c (f (getVal r c)))).map (rowAstype t f) =
      df.rows.map (rowAstype (c :: t) f)
    rw [List.map_map]
    rfl

theorem astypeAll_header_of_mem (f : Cell → Cell) :
    ∀ (cs : List String) (df : DataFrame), (∀ c ∈ cs, c ∈ df.header) →
      (astypeAll df cs f).header = df.header
  | [], _, _ => rfl
  | c :: t, df, h => by
    have hc : c ∈ df.header := h c (by simp)
    have hmc : (mapCol df c f).header = df.header := mapCol_header_of_mem df c f hc
    show (astypeAll (mapCol df c f) t f).header = df.header
    rw [astypeAll_header_of_mem f t (mapCol df c f)
      (fun x hx => by rw [hmc]; exact h x (by simp [hx])), hmc]

theorem mem_keys_setVal_self (r : Row) (c : String) (v : Cell) :
    c ∈ (setVal r c v).map Prod.fst := by
  induction r with
  | nil => simp [setVal]
  | cons p t ih =>
    by_cases hp : p.1 = c
    · simp [setVal, hp]
    · simp [setVal, hp]
      right
      simpa using ih

theorem mem_keys_setVal_of_mem (r : Row) (c k : String) (v : Cell)
    (h : k ∈ r.map Prod.fst) : k ∈ (setVal r c v).map Prod.fst := by
  induction r with
  | nil => simp at h
  | cons p t ih =>
    by_cases hp : p.1 = c
    · simp [setVal, hp] at h ⊢
      exact h
    · simp [setVal, hp] at h ⊢
      rcases h with h | h
      · left
        exact h
      · right
        simpa using ih (by simpa using h)

theorem setVal_getVal_of_mem (r : Row) (c : String)
    (h : c ∈ r.map Prod.fst) : setVal r c (getVal r c) = r := by
  induction r with
  | nil => simp at h
  | cons p t ih =>
    obtain ⟨a, b⟩ := p
    by_cases hp : a = c
    · subst hp
      simp [setVal, getVal]
    · simp [setVal, getVal, hp]
      simp at h
      rcases h with h | h
      · exact absurd h.symm hp
      · exact ih (by simpa using h)

theorem getVal_rowAstype_not_mem (f : Cell → Cell) :
    ∀ (cs : List String) (r : Row) (k : String), k ∉ cs →
      getVal (rowAstype cs f r) k = getVal r k
  | [], _, _, _ => rfl
  | c :: t, r, k, h => by
    rw [rowAstype_cons,
      getVal_rowAstype_not_mem f t _ k (fun hh => h (by simp [hh]))]
    exact getVal_setVal_ne r c k _ (fun hh => h (by simp [hh]))

theorem mem_keys_rowAstype (f : Cell → Cell) :
    ∀ (cs : List String) (r : Row) (k : String),
      k ∈ r.map Prod.fst → k ∈ (rowAstype cs f r).map Prod.fst
  | [], _, _, h => h
  | c :: t, r, k, h => by
    rw [rowAstype_cons]
    exact mem_keys_rowAstype f t _ k (mem_keys_setVal_of_mem r c k _ h)

/-- A row is stable on a column list when every listed key is present and
its value is a fixed point of the cast. -/
def StableOn (cs : List String) (f : Cell → Cell) (r : Row) : Prop :=
  ∀ c ∈ cs, c ∈ r.map Prod.fst ∧ getVal r c = f (getVal r c)

theorem stableOn_rowAstype (f : Cell → Cell) (hf : ∀ v, f (f v) = f v) :
    ∀ (cs : List String) (r : Row), StableOn cs f (rowAstype cs f r)
  | [], _ => fun c hc => absurd hc (List.not_mem_nil c)
  | c :: t, r => by
    intro x hx
    rw [rowAstype_cons]
    rcases List.mem_cons.mp hx with rfl | hxt
    · by_cases hct : x ∈ t
      · exact stableOn_rowAstype f hf t _ x hct
      · refine ⟨mem_keys_rowAstype f t _ x (mem_keys_setVal_self r x _), ?_⟩
        rw [getVal_rowAstype_not_mem f t _ x hct, getVal_setVal_self]
        exact (hf _).symm
    · exact stableOn_rowAstype f hf t _ x hxt

theorem rowAstype_eq_self_of_stable (f : Cell → Cell) :
    ∀ (cs : List String) (r : Row), StableOn cs f r → rowAstype cs f r = r
  | [], _, _ => rfl
  | c :: t, r, h => by
    obtain ⟨hk, hv⟩ := h c (by simp)
    rw [rowAstype_cons, ← hv, setVal_getVal_of_mem r c hk]
    exact rowAstype_eq_self_of_stable f t r (fun x hx => h x (by simp [hx]))

theorem stableOn_preserved_disjoint (f g : Cell → Cell) (cs ds : List String)
    (r : Row) (h : StableOn cs f r) (hd : ∀ c ∈ cs, c ∉ ds) :
    StableOn cs f (rowAstype ds g r) := by
  intro c hc
  obtain ⟨hk, hv⟩ := h c hc
  refine ⟨mem_keys_rowAstype g ds r c hk, ?_⟩
  rw [getVal_rowAstype_not_mem g ds r c (hd c hc)]
  exact hv

theorem rowAstype_idem (f : Cell → Cell) (hf : ∀ v, f (f v) = f v)
    (cs : List String) (r : Row) :
    rowAstype cs f (rowAstype cs f r) = rowAstype cs f r :=
  rowAstype_eq_self_of_stable f cs _ (stableOn_rowAstype f hf cs r)

theorem castInt64Cell_idem (v : Cell) :
    castInt64Cell (castInt64Cell v) = castInt64Cell v := by
  cases v <;> rfl

theorem castStringCell_idem (v : Cell) :
    castStringCell (castStringCell v) = castStringCell v := by
  cases v <;> rfl

theorem astype_guard (df : DataFrame) (l : List String) (f : Cell → Cell) :
    (if l.isEmpty then df else astypeAll df l f) = astypeAll df l f := by
  cases l with
  | nil => rfl
  | cons c t => rfl

theorem cast_column_types_eq (df : DataFrame) :
    cast_column_types df =
      astypeAll
        (astypeAll df (numericCastCols.filter (fun c => decide (c ∈ df.header)))
          castInt64Cell)
        (stringCastCols.filter (fun c => decide (c ∈ df.header)))
        castStringCell := by
  show (if (stringCastCols.filter (fun c => decide (c ∈ df.header))).isEmpty then
      (if (numericCastCols.filter (fun c => decide (c ∈ df.header))).isEmpty then df
        else astypeAll df (numericCastCols.filter (fun c => decide (c ∈ df.header)))
          castInt64Cell)
      else astypeAll
        (if (numericCastCols.filter (fun c => decide (c ∈ df.header))).isEmpty then df
          else astypeAll df (numericCastCols.filter (fun c => decide (c ∈ df.header)))
            castInt64Cell)
        (stringCastCols.filter (fun c => decide (c ∈ df.header)))
        castStringCell) = _
  rw [astype_guard, astype_guard]

/-- C8: `cast_column_types` is idempotent — applying the Silver type cast to
its own output returns an equal frame, so the Gold stage's re-application of
the cast over the full Silver table changes nothing already cast. -/
theorem cast_column_types_idempotent (df : DataFrame) :
    cast_column_types (cast_column_types df) = cast_column_types df := by
  have hnum_mem : ∀ c ∈ numericCastCols.filter (fun c => decide (c ∈ df.header)),
      c ∈ df.header := fun c hc => by simpa using (List.mem_filter.mp hc).2
  have hstr_mem : ∀ c ∈ stringCastCols.filter (fun c => decide (c ∈ df.header)),
      c ∈ df.header := fun c hc => by simpa using (List.mem_filter.mp hc).2
  have hA : (astypeAll df (numericCastCols.filter (fun c => decide (c ∈ df.header)))
      castInt64Cell).header = df.header :=
    astypeAll_header_of_mem castInt64Cell _ df hnum_mem
  have hB : (cast_column_types df).header = df.header := by
    rw [cast_column_types_eq df,
      astypeAll_header_of_mem castStringCell _ _ (fun c hc => by
        rw [hA]; exact hstr_mem c hc), hA]
  have hfn : numericCastCols.filter
        (fun c => decide (c ∈ (cast_column_types df).header)) =
      numericCastCols.filter (fun c => decide (c ∈ df.header)) := by
    rw [hB]
  have hfs : stringCastCols.filter
        (fun c => decide (c ∈ (cast_column_types df).header)) =
      stringCastCols.filter (fun c => decide (c ∈ df.header)) := by
    rw [hB]
  rw [cast_column_types_eq (cast_column_types df), hfn, hfs]
  rw [cast_column_types_eq df]
  have hdisj : ∀ c ∈ numericCastCols.filter (fun c => decide (c ∈ df.header)),
      c ∉ stringCastCols.filter (fun c => decide (c ∈ df.header)) := by
    intro c hc hcs
    have h1 : c ∈ numericCastCols := (List.mem_filter.mp hc).1
    have h2 : c ∈ stringCastCols := (List.mem_filter.mp hcs).1
    have hlists : ∀ x ∈ numericCastCols, x ∉ stringCastCols := by decide
    exact hlists c h1 h2
  have hnum_mem2 : ∀ c ∈ numericCastCols.filter (fun c => decide (c ∈ df.header)),
      c ∈ (astypeAll
        (astypeAll df (numericCastCols.filter (fun c => decide (c ∈ df.header)))
          castInt64Cell)
        (stringCastCols.filter (fun c => decide (c ∈ df.header)))
        castStringCell).header := by
    intro c hc
    rw [astypeAll_header_of_mem castStringCell _ _ (fun x hx => by
      rw [hA]; exact hstr_mem x hx), hA]
    exact hnum_mem c hc
  refine dataFrame_eq _ _ ?_ ?_
  · rw [astypeAll_header_of_mem castStringCell _ _ (fun c hc => by
        rw [astypeAll_header_of_mem castInt64Cell _ _ hnum_mem2,
          astypeAll_header_of_mem castStringCell _ _ (fun x hx => by
            rw [hA]; exact hstr_mem x hx), hA]
        exact hstr_mem c hc),
      astypeAll_header_of_mem castInt64Cell _ _ hnum_mem2]
  · rw [astypeAll_rows, astypeAll_rows, astypeAll_rows, astypeAll_rows]
    simp only [List.map_map]
    refine map_congr_fun _ _ _ ?_
    intro r
    show rowAstype (stringCastCols.filter (fun c => decide (c ∈ df.header)))
        castStringCell
        (rowAstype (numericCastCols.filter (fun c => decide (c ∈ df.header)))
          castInt64Cell
          (rowAstype (stringCastCols.filter (fun c => decide (c ∈ df.header)))
            castStringCell
            (rowAstype (numericCastCols.filter (fun c => decide (c ∈ df.header)))
              castInt64Cell r))) =
      rowAstype (stringCastCols.filter (fun c => decide (c ∈ df.header)))
        castStringCell
        (rowAstype (numericCastCols.filter (fun c => decide (c ∈ df.header)))
          castInt64Cell r)
    have h1 : StableOn (numericCastCols.filter (fun c => decide (c ∈ df.header)))
        castInt64Cell
        (rowAstype (numericCastCols.filter (fun c => decide (c ∈ df.header)))
          castInt64Cell r) :=
      stableOn_rowAstype castInt64Cell castInt64Cell_idem _ r
    have h2 : StableOn (numericCastCols.filter (fun c => decide (c ∈ df.header)))
        castInt64Cell
        (rowAstype (stringCastCols.filter (fun c => decide (c ∈ df.header)))
          castStringCell
          (rowAstype (numericCastCols.filter (fun c => decide (c ∈ df.header)))
            castInt64Cell r)) :=
      stableOn_preserved_disjoint castInt64Cell castStringCell _ _ _ h1 hdisj
    rw [rowAstype_eq_self_of_stable castInt64Cell _ _ h2]
    exact rowAstype_idem castStringCell castStringCell_idem _ _

end EtlFootball
